import Mathlib

/-!
Shallow embedding of the NYC taxi ETL notebook
(`README/nyc-taxi/nyctaxi_raw_dataset_etl.ipynb`).

Datasets are lists of typed rows.  The notebook's transformations are
embedded as plain functions:

* `apply_mapping` on each lookup DynamicFrame becomes a `List.map` over a
  row-projection function (`pu_taxi_zone_df`, `do_taxi_zone_df`,
  `payment_type_df`, `rate_code_df`).  Note that, exactly as in the
  notebook, `rate_code_df` is computed from the payment-type table
  (`rate_code_df = payment_type_dyf.apply_mapping(...)` in the source).
* the four sequential `.join(broadcast(lkp), key == key)` calls become
  nested `innerJoin`s (fact-major nested-loop semantics of a logical
  inner equi-join);
* `withColumn`/`to_timestamp`/`year`/`month`/`dayofmonth` become the
  `enrich` projection, with `to_timestamp` the permissive fixed-format
  parser returning `none` (SQL null) on failure;
* `orderBy("pu_year", "pu_month", "pu_day")` becomes a comparison sort
  (`orderBySort`) on the corresponding lexicographic key (nulls first, as
  Spark orders ascending);
* `.drop(...)` is reflected in the fields `enrich` keeps;
* `partitionBy("pu_year", "pu_month")` plus the parquet write become the
  partitioned `writeLayout` and the overwrite-mode `runPipeline`.

Column-name-level (schema) behaviour is embedded separately as lists of
column names with `joinSchema` / `withColumnSchema` / `dropSchema`.
-/

/-- One row of the taxi-zone lookup table (catalog table `taxizone`). -/
structure TaxiZoneRow where
  locationid : Int
  borough : String
  zone : String
  service_zone : String
deriving DecidableEq

/-- One row of the payment-type lookup table (catalog table `paymenttype`). -/
structure PaymentTypeRow where
  id : Int
  name : String
deriving DecidableEq

/-- One row of the rate-code lookup table (catalog table `ratecode`).
The notebook loads this table (`rate_code_dyf`) but never uses it in the
transformation. -/
structure RateCodeRow where
  id : Int
  name : String
deriving DecidableEq

/-- One row of the yellow trips fact table: the columns the notebook
references by name, plus `other` standing opaquely for all remaining
trip-measurement columns (fare, distance, ...), which are passed through
unchanged. -/
structure YellowRow where
  pulocationid : Int
  dolocationid : Int
  payment_type : Int
  ratecodeid : Int
  tpep_pickup_datetime : String
  tpep_dropoff_datetime : String
  store_and_fwd_flag : String
  other : String
deriving DecidableEq

/-- Result row of `taxi_zone_dyf.apply_mapping` with the `pu_*` target names. -/
structure PuZoneRow where
  pu_locationid : Int
  pu_borough : String
  pu_zone : String
  pu_service_zone : String
deriving DecidableEq

/-- Result row of `taxi_zone_dyf.apply_mapping` with the `do_*` target names. -/
structure DoZoneRow where
  do_locationid : Int
  do_borough : String
  do_zone : String
  do_service_zone : String
deriving DecidableEq

/-- Result row of `payment_type_dyf.apply_mapping` with the
`payment_type_id` / `payment_type_name` target names. -/
structure PaymentTypeMapped where
  payment_type_id : Int
  payment_type_name : String
deriving DecidableEq

/-- Result row of the rate-code mapping with the `ratecode_id` /
`ratecode_name` target names. -/
structure RateCodeMapped where
  ratecode_id : Int
  ratecode_name : String
deriving DecidableEq

/-- Source line `pu_taxi_zone_df = taxi_zone_dyf.apply_mapping([...pu_* names...]).toDF()`. -/
def pu_taxi_zone_df (taxi_zone : List TaxiZoneRow) : List PuZoneRow :=
  taxi_zone.map (fun z => ⟨z.locationid, z.borough, z.zone, z.service_zone⟩)

/-- Source line `do_taxi_zone_df = taxi_zone_dyf.apply_mapping([...do_* names...]).toDF()`. -/
def do_taxi_zone_df (taxi_zone : List TaxiZoneRow) : List DoZoneRow :=
  taxi_zone.map (fun z => ⟨z.locationid, z.borough, z.zone, z.service_zone⟩)

/-- Source line `payment_type_df = payment_type_dyf.apply_mapping([...]).toDF()`. -/
def payment_type_df (payment_type : List PaymentTypeRow) : List PaymentTypeMapped :=
  payment_type.map (fun p => ⟨p.id, p.name⟩)

/-- Source line `rate_code_df = payment_type_dyf.apply_mapping([...]).toDF()`.
As in the notebook, the source dataset is the PAYMENT-TYPE table, not the
rate-code table (`rate_code_dyf` is never used). -/
def rate_code_df (payment_type : List PaymentTypeRow) : List RateCodeMapped :=
  payment_type.map (fun p => ⟨p.id, p.name⟩)

/-- Modelled from the spec: the intended rate-code mapping, sourced from
the rate-code table itself ("reimplementations should treat rate-code
mapping as sourced from its own rate-code table").  Used only to compare
against the notebook's `rate_code_df`. -/
def rate_code_df_spec (rate_code : List RateCodeRow) : List RateCodeMapped :=
  rate_code.map (fun r => ⟨r.id, r.name⟩)

/-- A parsed timestamp value (Spark `TimestampType`), second precision. -/
structure Timestamp where
  year : Nat
  month : Nat
  day : Nat
  hour : Nat
  minute : Nat
  second : Nat
deriving DecidableEq

/-- All-digit string segment to a number (empty or non-digit fails). -/
def parseDigits (cs : List Char) : Option Nat :=
  if cs.isEmpty then none
  else if cs.all (fun c => c.isDigit) then
    some (cs.foldl (fun a c => a * 10 + (c.toNat - 48)) 0)
  else none

/-- Days in a month, Gregorian rules. -/
def daysInMonth (y m : Nat) : Nat :=
  if m = 2 then (if (y % 4 = 0 && y % 100 != 0) || y % 400 = 0 then 29 else 28)
  else if m = 4 || m = 6 || m = 9 || m = 11 then 30
  else 31

/-- Modelled from the spec: Spark's `to_timestamp(col, "yyyy-MM-dd HH:mm:ss")`
with the permissive parse policy — a string that does not match the fixed
format yields `none` (SQL null) instead of an error. -/
def to_timestamp (s : String) : Option Timestamp :=
  let cs := s.data
  if cs.length = 19 &&
     cs.getD 4 ' ' = '-' && cs.getD 7 ' ' = '-' && cs.getD 10 'x' = ' ' &&
     cs.getD 13 ' ' = ':' && cs.getD 16 ' ' = ':' then
    match parseDigits (cs.take 4), parseDigits ((cs.drop 5).take 2),
          parseDigits ((cs.drop 8).take 2), parseDigits ((cs.drop 11).take 2),
          parseDigits ((cs.drop 14).take 2), parseDigits ((cs.drop 17).take 2) with
    | some y, some mo, some d, some h, some mi, some se =>
      if 1 ≤ mo && mo ≤ 12 && 1 ≤ d && d ≤ daysInMonth y mo &&
         h < 24 && mi < 60 && se < 60 then
        some ⟨y, mo, d, h, mi, se⟩
      else none
    | _, _, _, _, _, _ => none
  else none

/-- Logical inner join on an arbitrary boolean key predicate, in
fact-major (left-major) order: for each left row, all matching right
rows.  This is the row-level meaning of `df.join(lkp, key == key)`. -/
def innerJoin (l : List α) (r : List β) (p : α → β → Bool) : List (α × β) :=
  l.flatMap (fun a => (r.filter (fun b => p a b)).map (fun b => (a, b)))

/-- The row shape after the four sequential joins of the notebook. -/
abbrev JoinedRow :=
  (((YellowRow × PuZoneRow) × DoZoneRow) × PaymentTypeMapped) × RateCodeMapped

/-- The four sequential inner joins of `yellow_opt_df` (notebook §5),
before the `withColumn` derivations and the `drop`:
`yellow_df.join(broadcast(pu_taxi_zone_df), pulocationid == pu_locationid)
 .join(broadcast(do_taxi_zone_df), dolocationid == do_locationid)
 .join(broadcast(payment_type_df), payment_type == payment_type_id)
 .join(broadcast(rate_code_df), ratecodeid == ratecode_id)`. -/
def joined (yellow : List YellowRow) (taxi_zone : List TaxiZoneRow)
    (payment_type : List PaymentTypeRow) : List JoinedRow :=
  innerJoin
    (innerJoin
      (innerJoin
        (innerJoin yellow (pu_taxi_zone_df taxi_zone)
          (fun f z => f.pulocationid == z.pu_locationid))
        (do_taxi_zone_df taxi_zone)
        (fun t z => t.1.dolocationid == z.do_locationid))
      (payment_type_df payment_type)
      (fun t p => t.1.1.payment_type == p.payment_type_id))
    (rate_code_df payment_type)
    (fun t r => t.1.1.1.ratecodeid == r.ratecode_id)

/-- The output row of `yellow_opt_df`: every joined column except the
dropped ones (`store_and_fwd_flag`, `pulocationid`, `dolocationid`,
`payment_type_id`, `ratecodeid`, `tpep_pickup_datetime`,
`tpep_dropoff_datetime`), plus the five derived columns. -/
structure EnrichedRow where
  payment_type : Int
  other : String
  pu_locationid : Int
  pu_borough : String
  pu_zone : String
  pu_service_zone : String
  do_locationid : Int
  do_borough : String
  do_zone : String
  do_service_zone : String
  payment_type_name : String
  ratecode_id : Int
  ratecode_name : String
  pu_datetime : Option Timestamp
  do_datetime : Option Timestamp
  pu_year : Option Nat
  pu_month : Option Nat
  pu_day : Option Nat
deriving DecidableEq

/-- The `withColumn` derivations (parsed timestamps and the year / month /
day of the parsed pickup timestamp, each null when the parse failed) and
the final `drop` projection, applied to one joined row. -/
def enrich (t : JoinedRow) : EnrichedRow :=
  { payment_type := t.1.1.1.1.payment_type
    other := t.1.1.1.1.other
    pu_locationid := t.1.1.1.2.pu_locationid
    pu_borough := t.1.1.1.2.pu_borough
    pu_zone := t.1.1.1.2.pu_zone
    pu_service_zone := t.1.1.1.2.pu_service_zone
    do_locationid := t.1.1.2.do_locationid
    do_borough := t.1.1.2.do_borough
    do_zone := t.1.1.2.do_zone
    do_service_zone := t.1.1.2.do_service_zone
    payment_type_name := t.1.2.payment_type_name
    ratecode_id := t.2.ratecode_id
    ratecode_name := t.2.ratecode_name
    pu_datetime := to_timestamp t.1.1.1.1.tpep_pickup_datetime
    do_datetime := to_timestamp t.1.1.1.1.tpep_dropoff_datetime
    pu_year := (to_timestamp t.1.1.1.1.tpep_pickup_datetime).map (fun ts => ts.year)
    pu_month := (to_timestamp t.1.1.1.1.tpep_pickup_datetime).map (fun ts => ts.month)
    pu_day := (to_timestamp t.1.1.1.1.tpep_pickup_datetime).map (fun ts => ts.day) }

/-- Ascending order on a nullable integer column, nulls first (Spark's
default for ascending `orderBy`). -/
def optNatLe (a b : Option Nat) : Bool :=
  match a, b with
  | none, _ => true
  | some _, none => false
  | some x, some y => x ≤ y

/-- Strict version of `optNatLe`. -/
def optNatLt (a b : Option Nat) : Bool :=
  match a, b with
  | none, none => false
  | none, some _ => true
  | some _, none => false
  | some x, some y => x < y

/-- The `orderBy("pu_year", "pu_month", "pu_day")` comparator:
lexicographic on the three derived calendar columns. -/
def enrichedLe (a b : EnrichedRow) : Bool :=
  optNatLt a.pu_year b.pu_year ||
  (a.pu_year == b.pu_year &&
    (optNatLt a.pu_month b.pu_month ||
      (a.pu_month == b.pu_month && optNatLe a.pu_day b.pu_day)))

/-- Insert an element into a sorted list (helper for `orderBySort`). -/
def insertSorted (le : α → α → Bool) (a : α) : List α → List α
  | [] => [a]
  | b :: l => if le a b then a :: b :: l else b :: insertSorted le a l

/-- The sort behind `orderBy`: a stable insertion sort on the given
comparator (row order among equal keys is not an observable contract of
the job, so any comparison sort models the `orderBy` equally well). -/
def orderBySort (le : α → α → Bool) : List α → List α
  | [] => []
  | a :: l => insertSorted le a (orderBySort le l)

/-- Dataset `yellow_opt_df`: the full §5 transformation — four inner joins,
derived columns, ordering by `(pu_year, pu_month, pu_day)`, and the final
drop projection. -/
def yellow_opt_df (yellow : List YellowRow) (taxi_zone : List TaxiZoneRow)
    (payment_type : List PaymentTypeRow) : List EnrichedRow :=
  orderBySort enrichedLe ((joined yellow taxi_zone payment_type).map enrich)

/-- Modelled from the spec: broadcast-join execution.  The fact dataset
arrives split into partitions (`repartition(4 * 10)`); each mapped lookup
is replicated whole to every partition, the four joins run per partition,
and the per-partition results are concatenated before the ordering and
final projection. -/
def yellow_opt_df_broadcast (parts : List (List YellowRow))
    (taxi_zone : List TaxiZoneRow) (payment_type : List PaymentTypeRow) :
    List EnrichedRow :=
  orderBySort enrichedLe
    (((parts.map (fun part => joined part taxi_zone payment_type)).flatten).map
      enrich)

/-- Pickup-zone lookup rows matching one fact row (join key
`pulocationid = pu_locationid`). -/
def puMatches (taxi_zone : List TaxiZoneRow) (f : YellowRow) : List PuZoneRow :=
  (pu_taxi_zone_df taxi_zone).filter (fun z => f.pulocationid == z.pu_locationid)

/-- Drop-off-zone lookup rows matching one fact row (join key
`dolocationid = do_locationid`). -/
def doMatches (taxi_zone : List TaxiZoneRow) (f : YellowRow) : List DoZoneRow :=
  (do_taxi_zone_df taxi_zone).filter (fun z => f.dolocationid == z.do_locationid)

/-- Payment-type lookup rows matching one fact row (join key
`payment_type = payment_type_id`). -/
def payMatches (payment_type : List PaymentTypeRow) (f : YellowRow) :
    List PaymentTypeMapped :=
  (payment_type_df payment_type).filter (fun p => f.payment_type == p.payment_type_id)

/-- Rate-code lookup rows matching one fact row (join key
`ratecodeid = ratecode_id`). -/
def rateMatches (payment_type : List PaymentTypeRow) (f : YellowRow) :
    List RateCodeMapped :=
  (rate_code_df payment_type).filter (fun r => f.ratecodeid == r.ratecode_id)

/-- A fact row has at least one match in each of the four lookups. -/
def fullMatch (taxi_zone : List TaxiZoneRow) (payment_type : List PaymentTypeRow)
    (f : YellowRow) : Bool :=
  !(puMatches taxi_zone f).isEmpty && !(doMatches taxi_zone f).isEmpty &&
  !(payMatches payment_type f).isEmpty && !(rateMatches payment_type f).isEmpty

/-- Schema of a join: the left columns followed by the right columns. -/
def joinSchema (l r : List String) : List String := l ++ r

/-- Schema effect of `withColumn c`: appends `c` unless it already exists
(in which case the column is replaced and the schema is unchanged). -/
def withColumnSchema (s : List String) (c : String) : List String :=
  if c ∈ s then s else s ++ [c]

/-- Schema effect of `drop(cols)`: removes every named column. -/
def dropSchema (s : List String) (cols : List String) : List String :=
  s.filter (fun c => decide (c ∉ cols))

/-- Target columns of the `pu_*` taxi-zone mapping. -/
def puTaxiZoneCols : List String :=
  ["pu_locationid", "pu_borough", "pu_zone", "pu_service_zone"]

/-- Target columns of the `do_*` taxi-zone mapping. -/
def doTaxiZoneCols : List String :=
  ["do_locationid", "do_borough", "do_zone", "do_service_zone"]

/-- Target columns of the payment-type mapping. -/
def paymentTypeCols : List String := ["payment_type_id", "payment_type_name"]

/-- Target columns of the rate-code mapping. -/
def rateCodeCols : List String := ["ratecode_id", "ratecode_name"]

/-- The columns of the yellow fact table that the notebook references by
name; further passthrough columns are supplied as a parameter. -/
def yellowSourceCols : List String :=
  ["tpep_pickup_datetime", "tpep_dropoff_datetime", "pulocationid",
   "dolocationid", "ratecodeid", "store_and_fwd_flag", "payment_type"]

/-- The exact argument list of the notebook's `.drop(...)` call. -/
def dropCols : List String :=
  ["store_and_fwd_flag", "pulocationid", "dolocationid", "payment_type_id",
   "ratecodeid", "tpep_pickup_datetime", "tpep_dropoff_datetime"]

/-- The five columns added by the `withColumn` chain. -/
def derivedCols : List String :=
  ["pu_datetime", "do_datetime", "pu_year", "pu_month", "pu_day"]

/-- Schema of `yellow_opt_df`, tracking the notebook's chain at the
column-name level: four joins, five `withColumn`s, then the drop.
`passthrough` lists the yellow columns not referenced by the notebook. -/
def yellow_opt_schema (passthrough : List String) : List String :=
  dropSchema
    (withColumnSchema
      (withColumnSchema
        (withColumnSchema
          (withColumnSchema
            (withColumnSchema
              (joinSchema
                (joinSchema
                  (joinSchema
                    (joinSchema (yellowSourceCols ++ passthrough) puTaxiZoneCols)
                    doTaxiZoneCols)
                  paymentTypeCols)
                rateCodeCols)
              "pu_datetime")
            "do_datetime")
          "pu_year")
        "pu_month")
      "pu_day")
    dropCols

/-- The partition key of one output row: the notebook's
`partitionBy("pu_year", "pu_month")`. -/
def partitionKey (e : EnrichedRow) : Option Nat × Option Nat :=
  (e.pu_year, e.pu_month)

/-- The distinct partition directories (Hive-style `pu_year=Y/pu_month=M`
segments) created for a dataset. -/
def partitionDirs (rows : List EnrichedRow) : List (Option Nat × Option Nat) :=
  (rows.map partitionKey).dedup

/-- The rows written under one partition directory. -/
def partitionContents (rows : List EnrichedRow) (k : Option Nat × Option Nat) :
    List EnrichedRow :=
  rows.filter (fun e => decide (partitionKey e = k))

/-- The partitioned on-disk layout: one directory per distinct key, with
the rows that share that key. -/
def writeLayout (rows : List EnrichedRow) :
    List ((Option Nat × Option Nat) × List EnrichedRow) :=
  (partitionDirs rows).map (fun k => (k, partitionContents rows k))

/-- The destination contents: either nothing yet, or a previously written
partitioned layout. -/
abbrev Layout := List ((Option Nat × Option Nat) × List EnrichedRow)

/-- Source line `blockSize = 1024 * 1024 * 32` — the notebook's parquet row-group
size, passed as the `parquet.block.size` option. -/
def blockSize : Nat := 1024 * 1024 * 32

/-- The four catalog tables a run reads (`yellow`, `taxizone`,
`paymenttype`, `ratecode`).  The rate-code table is loaded by the
notebook but unused by the transformation. -/
structure Sources where
  yellow : List YellowRow
  taxiZone : List TaxiZoneRow
  paymentType : List PaymentTypeRow
  rateCode : List RateCodeRow

/-- The dataset a run materializes: the partitioned layout of
`yellow_opt_df` over the source snapshot. -/
def pipelineOutput (s : Sources) : Layout :=
  writeLayout (yellow_opt_df s.yellow s.taxiZone s.paymentType)

/-- The `mode("overwrite")` write: the previous destination contents are
discarded and fully replaced by the new dataset. -/
def save_overwrite (dest : Option Layout) (out : Layout) : Option Layout :=
  some out

/-- One run: read the snapshot, transform, overwrite the destination. -/
def runPipeline (s : Sources) (dest : Option Layout) : Option Layout :=
  save_overwrite dest (pipelineOutput s)

/-- Example taxi-zone table used by the spec's worked example. -/
def tzEx : List TaxiZoneRow :=
  [⟨1, "Manhattan", "Alphabet City", "Yellow Zone"⟩,
   ⟨2, "Queens", "Astoria", "Boro Zone"⟩]

/-- Example payment-type table (id 1 present). -/
def ptEx : List PaymentTypeRow := [⟨1, "Credit card"⟩]

/-- The spec's worked example fact row: `pulocationid=1, dolocationid=2,
payment_type=1, ratecodeid=1, tpep_pickup_datetime="2019-01-15 08:30:00"`. -/
def yellowEx : YellowRow :=
  { pulocationid := 1
    dolocationid := 2
    payment_type := 1
    ratecodeid := 1
    tpep_pickup_datetime := "2019-01-15 08:30:00"
    tpep_dropoff_datetime := "2019-01-15 08:45:00"
    store_and_fwd_flag := "N"
    other := "fare 12.5" }

/-- A fact row whose pickup timestamp string does not parse under the
fixed format. -/
def yellowBadTs : YellowRow :=
  { pulocationid := 1
    dolocationid := 2
    payment_type := 1
    ratecodeid := 1
    tpep_pickup_datetime := "not a timestamp"
    tpep_dropoff_datetime := "2019-01-15 08:45:00"
    store_and_fwd_flag := "N"
    other := "" }

/-- A fact row with equal pickup and drop-off location identifiers. -/
def yellowSameLoc : YellowRow :=
  { pulocationid := 1
    dolocationid := 1
    payment_type := 1
    ratecodeid := 1
    tpep_pickup_datetime := "2019-01-15 08:30:00"
    tpep_dropoff_datetime := "2019-01-15 08:45:00"
    store_and_fwd_flag := "N"
    other := "" }

/-- The single output row produced for `yellowBadTs`: the unparsable
pickup string yields null `pu_datetime` and null calendar columns. -/
def enrichedBadTs : EnrichedRow :=
  { payment_type := 1
    other := ""
    pu_locationid := 1
    pu_borough := "Manhattan"
    pu_zone := "Alphabet City"
    pu_service_zone := "Yellow Zone"
    do_locationid := 2
    do_borough := "Queens"
    do_zone := "Astoria"
    do_service_zone := "Boro Zone"
    payment_type_name := "Credit card"
    ratecode_id := 1
    ratecode_name := "Credit card"
    pu_datetime := none
    do_datetime := some ⟨2019, 1, 15, 8, 45, 0⟩
    pu_year := none
    pu_month := none
    pu_day := none }

/-- The single output row produced for `yellowSameLoc`: both zone joins
hit the same taxi-zone row. -/
def enrichedSameLoc : EnrichedRow :=
  { payment_type := 1
    other := ""
    pu_locationid := 1
    pu_borough := "Manhattan"
    pu_zone := "Alphabet City"
    pu_service_zone := "Yellow Zone"
    do_locationid := 1
    do_borough := "Manhattan"
    do_zone := "Alphabet City"
    do_service_zone := "Yellow Zone"
    payment_type_name := "Credit card"
    ratecode_id := 1
    ratecode_name := "Credit card"
    pu_datetime := some ⟨2019, 1, 15, 8, 30, 0⟩
    do_datetime := some ⟨2019, 1, 15, 8, 45, 0⟩
    pu_year := some 2019
    pu_month := some 1
    pu_day := some 15 }

theorem mem_withColumnSchema {s : List String} {c x : String} :
    x ∈ withColumnSchema s c ↔ x ∈ s ∨ x = c := by
  unfold withColumnSchema
  by_cases h : c ∈ s
  · rw [if_pos h]
    constructor
    · exact Or.inl
    · intro hx
      rcases hx with hx | hx
      · exact hx
      · exact hx ▸ h
  · rw [if_neg h]
    simp [List.mem_append]

theorem mem_dropSchema {s cols : List String} {x : String} :
    x ∈ dropSchema s cols ↔ x ∈ s ∧ x ∉ cols := by
  simp [dropSchema, List.mem_filter]

theorem mem_yellow_opt_schema {passthrough : List String} {c : String} :
    c ∈ yellow_opt_schema passthrough ↔
      ((c ∈ yellowSourceCols ∨ c ∈ passthrough ∨ c ∈ puTaxiZoneCols ∨
        c ∈ doTaxiZoneCols ∨ c ∈ paymentTypeCols ∨ c ∈ rateCodeCols ∨
        c ∈ derivedCols) ∧ c ∉ dropCols) := by
  simp only [yellow_opt_schema, joinSchema, mem_dropSchema, mem_withColumnSchema,
    List.mem_append, derivedCols, List.mem_cons, List.not_mem_nil, or_false]
  tauto

/-- C1, counterexample: the claim asserts the joined lookup id columns
`pu_locationid`, `do_locationid`, `ratecode_id` are dropped and all
original identifier columns are removed, but the notebook's `.drop(...)`
does not list them: they remain in the output schema, as does the fact
table's `payment_type` column. -/
theorem c1_schema_counterexample :
    "pu_locationid" ∈ yellow_opt_schema [] ∧
    "do_locationid" ∈ yellow_opt_schema [] ∧
    "ratecode_id" ∈ yellow_opt_schema [] ∧
    "payment_type" ∈ yellow_opt_schema [] := by decide

/-- C1, amended: the output schema contains exactly the surviving joined
and derived columns and none of the explicitly dropped ones — the drop
list being precisely `store_and_fwd_flag`, `pulocationid`, `dolocationid`,
`payment_type_id`, `ratecodeid`, `tpep_pickup_datetime`,
`tpep_dropoff_datetime`; the joined lookup id columns `pu_locationid`,
`do_locationid`, `ratecode_id` and the fact column `payment_type` are
retained. -/
theorem c1_schema_projection (passthrough : List String) :
    (∀ c, c ∈ dropCols → c ∉ yellow_opt_schema passthrough) ∧
    (∀ c, c ∈ yellow_opt_schema passthrough ↔
      ((c ∈ yellowSourceCols ∨ c ∈ passthrough ∨ c ∈ puTaxiZoneCols ∨
        c ∈ doTaxiZoneCols ∨ c ∈ paymentTypeCols ∨ c ∈ rateCodeCols ∨
        c ∈ derivedCols) ∧ c ∉ dropCols)) ∧
    "pu_locationid" ∈ yellow_opt_schema passthrough ∧
    "do_locationid" ∈ yellow_opt_schema passthrough ∧
    "ratecode_id" ∈ yellow_opt_schema passthrough ∧
    "payment_type" ∈ yellow_opt_schema passthrough := by
  refine ⟨?_, fun c => mem_yellow_opt_schema, ?_, ?_, ?_, ?_⟩
  · intro c hc hmem
    exact ((mem_yellow_opt_schema).mp hmem).2 hc
  · exact mem_yellow_opt_schema.mpr
      ⟨Or.inr (Or.inr (Or.inl (by decide))), by decide⟩
  · exact mem_yellow_opt_schema.mpr
      ⟨Or.inr (Or.inr (Or.inr (Or.inl (by decide)))), by decide⟩
  · exact mem_yellow_opt_schema.mpr
      ⟨Or.inr (Or.inr (Or.inr (Or.inr (Or.inr (Or.inl (by decide)))))), by decide⟩
  · exact mem_yellow_opt_schema.mpr ⟨Or.inl (by decide), by decide⟩

/-- C1 witness: a concrete dropped column is absent from the concrete
output schema. -/
theorem c1_schema_projection_witness :
    "store_and_fwd_flag" ∉ yellow_opt_schema [] :=
  (c1_schema_projection []).1 "store_and_fwd_flag" (by decide)

/-- C2: in the notebook the rate-code lookup is built from the
payment-type source table (`rate_code_df = payment_type_dyf.apply_mapping`),
not from its own rate-code table; on a snapshot where the two tables
differ the produced lookup carries payment-type names, and the loaded
rate-code table has no effect whatsoever on the pipeline output. -/
theorem c2_rate_code_source_bug :
    rate_code_df ptEx = [⟨1, "Credit card"⟩] ∧
    rate_code_df_spec [⟨1, "Standard rate"⟩] = [⟨1, "Standard rate"⟩] ∧
    rate_code_df ptEx ≠ rate_code_df_spec [⟨1, "Standard rate"⟩] ∧
    (∀ s : Sources, ∀ rc : List RateCodeRow,
      pipelineOutput { s with rateCode := rc } = pipelineOutput s) := by
  refine ⟨by decide, by decide, by decide, ?_⟩
  intro s rc
  rfl

/-- C5: the spec's worked example — the fact row with ids (1, 2, 1, 1)
and pickup timestamp "2019-01-15 08:30:00", joined against lookups
containing those ids, yields exactly one output row with
`pu_year = 2019`, `pu_month = 1`, `pu_day = 15` and populated zone,
payment-type and rate-code name columns, placed in the
`pu_year=2019/pu_month=1` partition. -/
theorem c5_example_row :
    yellow_opt_df [yellowEx] tzEx ptEx =
      [{ payment_type := 1
         other := "fare 12.5"
         pu_locationid := 1
         pu_borough := "Manhattan"
         pu_zone := "Alphabet City"
         pu_service_zone := "Yellow Zone"
         do_locationid := 2
         do_borough := "Queens"
         do_zone := "Astoria"
         do_service_zone := "Boro Zone"
         payment_type_name := "Credit card"
         ratecode_id := 1
         ratecode_name := "Credit card"
         pu_datetime := some ⟨2019, 1, 15, 8, 30, 0⟩
         do_datetime := some ⟨2019, 1, 15, 8, 45, 0⟩
         pu_year := some 2019
         pu_month := some 1
         pu_day := some 15 }] ∧
    partitionDirs (yellow_opt_df [yellowEx] tzEx ptEx) = [(some 2019, some 1)] ∧
    (partitionContents (yellow_opt_df [yellowEx] tzEx ptEx)
        (some 2019, some 1)).length = 1 := by
  refine ⟨by decide, by decide, by decide⟩

/-- C6: with overwrite-mode write, running the pipeline twice against the
same source snapshot and destination leaves the destination equal to a
single run (and indeed independent of any prior destination contents). -/
theorem c6_overwrite_idempotent (s : Sources) (dest : Option Layout) :
    runPipeline s (runPipeline s dest) = runPipeline s dest ∧
    runPipeline s dest = runPipeline s none :=
  ⟨rfl, rfl⟩

/-- C9: the configured parquet row-group size is `1024 * 1024 * 32`
bytes, i.e. exactly 32MB, which lies between 16MB and 64MB. -/
theorem c9_block_size :
    blockSize = 1024 * 1024 * 32 ∧ blockSize = 33554432 ∧
    16 * 1024 * 1024 ≤ blockSize ∧ blockSize ≤ 64 * 1024 * 1024 := by decide

theorem mem_innerJoin {l : List α} {r : List β} {p : α → β → Bool}
    {x : α × β} :
    x ∈ innerJoin l r p ↔ x.1 ∈ l ∧ x.2 ∈ r ∧ p x.1 x.2 = true := by
  cases x with
  | mk a b =>
    simp only [innerJoin, List.mem_flatMap, List.mem_map, List.mem_filter,
      Prod.mk.injEq]
    constructor
    · rintro ⟨a1, ha1, b1, ⟨hb1, hp1⟩, h1, h2⟩
      subst h1
      subst h2
      exact ⟨ha1, hb1, hp1⟩
    · rintro ⟨ha, hb, hp⟩
      exact ⟨a, ha, b, ⟨hb, hp⟩, rfl, rfl⟩

theorem innerJoin_append (l1 l2 : List α) (r : List β) (p : α → β → Bool) :
    innerJoin (l1 ++ l2) r p = innerJoin l1 r p ++ innerJoin l2 r p := by
  simp [innerJoin, List.flatMap_append]

theorem innerJoin_cons (a : α) (l : List α) (r : List β) (p : α → β → Bool) :
    innerJoin (a :: l) r p =
      (r.filter (fun b => p a b)).map (fun b => (a, b)) ++ innerJoin l r p := by
  simp [innerJoin, List.flatMap_cons]

theorem length_innerJoin_const (r : List β) (p : α → β → Bool) (c : Nat) :
    ∀ l : List α, (∀ a ∈ l, (r.filter (fun b => p a b)).length = c) →
      (innerJoin l r p).length = l.length * c := by
  intro l
  induction l with
  | nil => intro _; simp [innerJoin]
  | cons a t ih =>
    intro h
    rw [innerJoin_cons, List.length_append, List.length_map,
      h a (List.mem_cons_self a t),
      ih (fun x hx => h x (List.mem_cons_of_mem a hx))]
    simp [List.length_cons, Nat.succ_mul, Nat.add_comm]

theorem length_insertSorted (le : α → α → Bool) (a : α) (l : List α) :
    (insertSorted le a l).length = l.length + 1 := by
  induction l with
  | nil => rfl
  | cons b t ih =>
    unfold insertSorted
    by_cases h : le a b = true
    · simp [h]
    · simp [h, ih]

theorem mem_insertSorted (le : α → α → Bool) (a x : α) (l : List α) :
    x ∈ insertSorted le a l ↔ x = a ∨ x ∈ l := by
  induction l with
  | nil => simp [insertSorted]
  | cons b t ih =>
    unfold insertSorted
    by_cases h : le a b = true
    · simp [h, List.mem_cons]
    · simp only [h, Bool.false_eq_true, if_false, List.mem_cons, ih]
      tauto

theorem length_orderBySort (le : α → α → Bool) (l : List α) :
    (orderBySort le l).length = l.length := by
  induction l with
  | nil => rfl
  | cons a t ih => simp [orderBySort, length_insertSorted, ih]

theorem mem_orderBySort (le : α → α → Bool) (x : α) (l : List α) :
    x ∈ orderBySort le l ↔ x ∈ l := by
  induction l with
  | nil => simp [orderBySort]
  | cons a t ih => simp [orderBySort, mem_insertSorted, ih, List.mem_cons]

theorem joined_append (y1 y2 : List YellowRow) (tz : List TaxiZoneRow)
    (pt : List PaymentTypeRow) :
    joined (y1 ++ y2) tz pt = joined y1 tz pt ++ joined y2 tz pt := by
  unfold joined
  simp only [innerJoin_append]

theorem joined_flatMap (yellow : List YellowRow) (tz : List TaxiZoneRow)
    (pt : List PaymentTypeRow) :
    joined yellow tz pt = yellow.flatMap (fun f => joined [f] tz pt) := by
  induction yellow with
  | nil => rfl
  | cons f t ih =>
    have h : f :: t = [f] ++ t := rfl
    rw [h, joined_append, ih, List.flatMap_append]
    simp [List.flatMap_cons]

theorem joined_flatten (parts : List (List YellowRow)) (tz : List TaxiZoneRow)
    (pt : List PaymentTypeRow) :
    joined parts.flatten tz pt =
      (parts.map (fun part => joined part tz pt)).flatten := by
  induction parts with
  | nil => rfl
  | cons p t ih => simp [List.flatten_cons, joined_append, ih]

/-- C7: the broadcast hint is purely a physical execution policy — for
every partitioning of the fact dataset, executing the four lookup joins
per fact partition against the replicated (broadcast) lookups and
concatenating yields exactly the rows of the logical sequential inner
joins over the whole fact dataset; the enriched result is identical. -/
theorem c7_broadcast_equivalence (parts : List (List YellowRow))
    (tz : List TaxiZoneRow) (pt : List PaymentTypeRow) :
    yellow_opt_df_broadcast parts tz pt = yellow_opt_df parts.flatten tz pt := by
  unfold yellow_opt_df_broadcast yellow_opt_df
  rw [joined_flatten]

theorem joined_singleton_length (f : YellowRow) (tz : List TaxiZoneRow)
    (pt : List PaymentTypeRow) :
    (joined [f] tz pt).length =
      (puMatches tz f).length * (doMatches tz f).length *
      (payMatches pt f).length * (rateMatches pt f).length := by
  have h1 : ∀ a ∈ ([f] : List YellowRow),
      ((pu_taxi_zone_df tz).filter
        (fun z => a.pulocationid == z.pu_locationid)).length =
        (puMatches tz f).length := by
    intro a ha
    rw [List.mem_singleton] at ha
    subst ha
    rfl
  have l1 := length_innerJoin_const (pu_taxi_zone_df tz)
    (fun g z => g.pulocationid == z.pu_locationid) (puMatches tz f).length [f] h1
  have m1 : ∀ t ∈ innerJoin [f] (pu_taxi_zone_df tz)
      (fun g z => g.pulocationid == z.pu_locationid), t.1 = f := by
    intro t ht
    have := (mem_innerJoin.mp ht).1
    rwa [List.mem_singleton] at this
  have h2 : ∀ t ∈ innerJoin [f] (pu_taxi_zone_df tz)
      (fun g z => g.pulocationid == z.pu_locationid),
      ((do_taxi_zone_df tz).filter
        (fun z => t.1.dolocationid == z.do_locationid)).length =
        (doMatches tz f).length := by
    intro t ht
    rw [m1 t ht]
    rfl
  have l2 := length_innerJoin_const (do_taxi_zone_df tz)
    (fun (t : YellowRow × PuZoneRow) z => t.1.dolocationid == z.do_locationid)
    (doMatches tz f).length _ h2
  have m2 : ∀ t ∈ innerJoin
      (innerJoin [f] (pu_taxi_zone_df tz)
        (fun g z => g.pulocationid == z.pu_locationid))
      (do_taxi_zone_df tz) (fun t z => t.1.dolocationid == z.do_locationid),
      t.1.1 = f := by
    intro t ht
    exact m1 t.1 (mem_innerJoin.mp ht).1
  have h3 : ∀ t ∈ innerJoin
      (innerJoin [f] (pu_taxi_zone_df tz)
        (fun g z => g.pulocationid == z.pu_locationid))
      (do_taxi_zone_df tz) (fun t z => t.1.dolocationid == z.do_locationid),
      ((payment_type_df pt).filter
        (fun p => t.1.1.payment_type == p.payment_type_id)).length =
        (payMatches pt f).length := by
    intro t ht
    rw [m2 t ht]
    rfl
  have l3 := length_innerJoin_const (payment_type_df pt)
    (fun (t : (YellowRow × PuZoneRow) × DoZoneRow) p =>
      t.1.1.payment_type == p.payment_type_id)
    (payMatches pt f).length _ h3
  have m3 : ∀ t ∈ innerJoin
      (innerJoin
        (innerJoin [f] (pu_taxi_zone_df tz)
          (fun g z => g.pulocationid == z.pu_locationid))
        (do_taxi_zone_df tz) (fun t z => t.1.dolocationid == z.do_locationid))
      (payment_type_df pt) (fun t p => t.1.1.payment_type == p.payment_type_id),
      t.1.1.1 = f := by
    intro t ht
    exact m2 t.1 (mem_innerJoin.mp ht).1
  have h4 : ∀ t ∈ innerJoin
      (innerJoin
        (innerJoin [f] (pu_taxi_zone_df tz)
          (fun g z => g.pulocationid == z.pu_locationid))
        (do_taxi_zone_df tz) (fun t z => t.1.dolocationid == z.do_locationid))
      (payment_type_df pt) (fun t p => t.1.1.payment_type == p.payment_type_id),
      ((rate_code_df pt).filter
        (fun r => t.1.1.1.ratecodeid == r.ratecode_id)).length =
        (rateMatches pt f).length := by
    intro t ht
    rw [m3 t ht]
    rfl
  have l4 := length_innerJoin_const (rate_code_df pt)
    (fun (t : ((YellowRow × PuZoneRow) × DoZoneRow) × PaymentTypeMapped) r =>
      t.1.1.1.ratecodeid == r.ratecode_id)
    (rateMatches pt f).length _ h4
  unfold joined
  rw [l4, l3, l2, l1]
  simp [List.length_singleton]

theorem length_filter_key_le_one (key : α → Int) (k : Int) :
    ∀ l : List α, l.Pairwise (fun a b => key a ≠ key b) →
      (l.filter (fun a => k == key a)).length ≤ 1 := by
  intro l
  induction l with
  | nil => intro _; simp
  | cons a t ih =>
    intro hp
    rcases List.pairwise_cons.mp hp with ⟨ha, ht⟩
    rw [List.filter_cons]
    by_cases hk : (k == key a) = true
    · rw [if_pos hk]
      have hka : key a = k := (beq_iff_eq.mp hk).symm
      have hnil : t.filter (fun x => k == key x) = [] := by
        rw [List.filter_eq_nil_iff]
        intro x hx hbad
        exact ha x hx (hka.trans (beq_iff_eq.mp hbad))
      simp [hnil]
    · rw [if_neg hk]
      exact ih ht

theorem sum_map_ite_eq_length_filter (g : α → Nat) (q : α → Bool) :
    ∀ l : List α, (∀ a ∈ l, g a = if q a then 1 else 0) →
      (l.map g).sum = (l.filter q).length := by
  intro l
  induction l with
  | nil => intro _; rfl
  | cons a t ih =>
    intro h
    rw [List.map_cons, List.sum_cons, h a (List.mem_cons_self a t),
      ih (fun x hx => h x (List.mem_cons_of_mem a hx)), List.filter_cons]
    by_cases hq : q a = true
    · simp [hq, Nat.add_comm]
    · simp [hq]

/-- C3: under per-lookup key uniqueness (distinct `locationid`s in the
taxi-zone table, distinct `id`s in the payment-type table, which also
feeds the rate-code lookup), the joined dataset decomposes fact row by
fact row; a fact row with a match in all four lookups contributes exactly
one output row, a fact row lacking any match contributes none, and the
output cardinality equals the number of fully matched fact rows — hence
is at most the fact count, with equality when all fact rows fully match. -/
theorem c3_join_cardinality (yellow : List YellowRow) (tz : List TaxiZoneRow)
    (pt : List PaymentTypeRow)
    (hz : tz.Pairwise (fun a b => a.locationid ≠ b.locationid))
    (hp : pt.Pairwise (fun a b => a.id ≠ b.id)) :
    (joined yellow tz pt = yellow.flatMap (fun f => joined [f] tz pt)) ∧
    (∀ f : YellowRow, fullMatch tz pt f = true → (joined [f] tz pt).length = 1) ∧
    (∀ f : YellowRow, fullMatch tz pt f = false → (joined [f] tz pt).length = 0) ∧
    (yellow_opt_df yellow tz pt).length =
      (yellow.filter (fun f => fullMatch tz pt f)).length ∧
    (yellow_opt_df yellow tz pt).length ≤ yellow.length ∧
    ((∀ f ∈ yellow, fullMatch tz pt f = true) →
      (yellow_opt_df yellow tz pt).length = yellow.length) := by
  have hpu : ∀ f : YellowRow, (puMatches tz f).length ≤ 1 := by
    intro f
    unfold puMatches
    exact length_filter_key_le_one (fun z => z.pu_locationid) f.pulocationid
      (pu_taxi_zone_df tz) (List.Pairwise.map _ (fun a b h => h) hz)
  have hdo : ∀ f : YellowRow, (doMatches tz f).length ≤ 1 := by
    intro f
    unfold doMatches
    exact length_filter_key_le_one (fun z => z.do_locationid) f.dolocationid
      (do_taxi_zone_df tz) (List.Pairwise.map _ (fun a b h => h) hz)
  have hpay : ∀ f : YellowRow, (payMatches pt f).length ≤ 1 := by
    intro f
    unfold payMatches
    exact length_filter_key_le_one (fun p => p.payment_type_id) f.payment_type
      (payment_type_df pt) (List.Pairwise.map _ (fun a b h => h) hp)
  have hrate : ∀ f : YellowRow, (rateMatches pt f).length ≤ 1 := by
    intro f
    unfold rateMatches
    exact length_filter_key_le_one (fun r => r.ratecode_id) f.ratecodeid
      (rate_code_df pt) (List.Pairwise.map _ (fun a b h => h) hp)
  have hone : ∀ f : YellowRow, fullMatch tz pt f = true →
      (joined [f] tz pt).length = 1 := by
    intro f hf
    unfold fullMatch at hf
    simp only [Bool.and_eq_true, Bool.not_eq_true', List.isEmpty_eq_false] at hf
    have p1 : 0 < (puMatches tz f).length := List.length_pos.mpr hf.1.1.1
    have p2 : 0 < (doMatches tz f).length := List.length_pos.mpr hf.1.1.2
    have p3 : 0 < (payMatches pt f).length := List.length_pos.mpr hf.1.2
    have p4 : 0 < (rateMatches pt f).length := List.length_pos.mpr hf.2
    have e1 : (puMatches tz f).length = 1 := le_antisymm (hpu f) p1
    have e2 : (doMatches tz f).length = 1 := le_antisymm (hdo f) p2
    have e3 : (payMatches pt f).length = 1 := le_antisymm (hpay f) p3
    have e4 : (rateMatches pt f).length = 1 := le_antisymm (hrate f) p4
    rw [joined_singleton_length, e1, e2, e3, e4]
  have hzero : ∀ f : YellowRow, fullMatch tz pt f = false →
      (joined [f] tz pt).length = 0 := by
    intro f hf
    rw [joined_singleton_length]
    by_cases h1 : (puMatches tz f).isEmpty = true
    · rw [List.isEmpty_iff.mp h1]
      simp
    · by_cases h2 : (doMatches tz f).isEmpty = true
      · rw [List.isEmpty_iff.mp h2]
        simp
      · by_cases h3 : (payMatches pt f).isEmpty = true
        · rw [List.isEmpty_iff.mp h3]
          simp
        · by_cases h4 : (rateMatches pt f).isEmpty = true
          · rw [List.isEmpty_iff.mp h4]
            simp
          · exfalso
            unfold fullMatch at hf
            simp only [Bool.not_eq_true] at h1 h2 h3 h4
            rw [h1, h2, h3, h4] at hf
            simp at hf
  have hlen : (yellow_opt_df yellow tz pt).length = (joined yellow tz pt).length := by
    unfold yellow_opt_df
    rw [length_orderBySort, List.length_map]
  have hjlen : (joined yellow tz pt).length =
      (yellow.filter (fun f => fullMatch tz pt f)).length := by
    rw [joined_flatMap, List.length_flatMap]
    have hsum := sum_map_ite_eq_length_filter
      (fun f => (joined [f] tz pt).length) (fun f => fullMatch tz pt f) yellow ?_
    · simpa [Function.comp] using hsum
    · intro a _
      by_cases hm : fullMatch tz pt a = true
      · simp [hm, hone a hm]
      · have hm0 : fullMatch tz pt a = false := by
          revert hm
          cases fullMatch tz pt a <;> simp
        simp [hm0, hzero a hm0]
  refine ⟨joined_flatMap yellow tz pt, hone, hzero, hlen.trans hjlen, ?_, ?_⟩
  · rw [hlen, hjlen]
    exact List.length_filter_le _ _
  · intro hall
    rw [hlen, hjlen, List.filter_eq_self.mpr hall]

/-- C3 witness: the concrete example snapshot has unique lookup keys and
a fully matched single fact row, so the output has exactly one row. -/
theorem c3_join_cardinality_witness :
    (yellow_opt_df [yellowEx] tzEx ptEx).length = 1 :=
  (c3_join_cardinality [yellowEx] tzEx ptEx (by decide) (by decide)).2.2.2.2.2
    (by decide)

theorem mem_yellow_opt_df_decomp {yellow : List YellowRow} {tz : List TaxiZoneRow}
    {pt : List PaymentTypeRow} {e : EnrichedRow}
    (he : e ∈ yellow_opt_df yellow tz pt) :
    ∃ t, t ∈ joined yellow tz pt ∧ e = enrich t := by
  unfold yellow_opt_df at he
  rw [mem_orderBySort] at he
  rcases List.mem_map.mp he with ⟨t, ht, hte⟩
  exact ⟨t, ht, hte.symm⟩

theorem mem_joined_decomp {yellow : List YellowRow} {tz : List TaxiZoneRow}
    {pt : List PaymentTypeRow} {t : JoinedRow} (ht : t ∈ joined yellow tz pt) :
    t.1.1.1.1 ∈ yellow ∧ t.1.1.1.2 ∈ pu_taxi_zone_df tz ∧
    t.1.1.2 ∈ do_taxi_zone_df tz ∧ t.1.2 ∈ payment_type_df pt ∧
    t.2 ∈ rate_code_df pt ∧
    (t.1.1.1.1.pulocationid == t.1.1.1.2.pu_locationid) = true ∧
    (t.1.1.1.1.dolocationid == t.1.1.2.do_locationid) = true := by
  unfold joined at ht
  have h4 := mem_innerJoin.mp ht
  have h3 := mem_innerJoin.mp h4.1
  have h2 := mem_innerJoin.mp h3.1
  have h1 := mem_innerJoin.mp h2.1
  exact ⟨h1.1, h1.2.1, h2.2.1, h3.2.1, h4.2.1, h1.2.2, h2.2.2⟩

/-- C4: every output row carries `pu_datetime` / `do_datetime` obtained
by the fixed-format parse of the originating fact row's raw timestamp
strings, and its calendar columns are the (null-propagating) projections
of `pu_datetime` — in particular, when the pickup string fails to parse,
`pu_year`, `pu_month` and `pu_day` are all null and the row is still
produced (the job does not abort). -/
theorem c4_timestamp_null_on_parse_failure (yellow : List YellowRow)
    (tz : List TaxiZoneRow) (pt : List PaymentTypeRow) (e : EnrichedRow)
    (he : e ∈ yellow_opt_df yellow tz pt) :
    ∃ f, f ∈ yellow ∧
      e.pu_datetime = to_timestamp f.tpep_pickup_datetime ∧
      e.do_datetime = to_timestamp f.tpep_dropoff_datetime ∧
      e.pu_year = e.pu_datetime.map (fun ts => ts.year) ∧
      e.pu_month = e.pu_datetime.map (fun ts => ts.month) ∧
      e.pu_day = e.pu_datetime.map (fun ts => ts.day) ∧
      (e.pu_datetime = none →
        e.pu_year = none ∧ e.pu_month = none ∧ e.pu_day = none) := by
  rcases mem_yellow_opt_df_decomp he with ⟨t, ht, rfl⟩
  rcases mem_joined_decomp ht with ⟨hf, -, -, -, -, -, -⟩
  refine ⟨t.1.1.1.1, hf, rfl, rfl, rfl, rfl, rfl, ?_⟩
  intro h0
  have hn : to_timestamp t.1.1.1.1.tpep_pickup_datetime = none := h0
  refine ⟨?_, ?_, ?_⟩ <;> simp [enrich, hn]

/-- C4 witness: the pickup string of `yellowBadTs` does not parse, and
its single output row has null `pu_datetime`, `pu_year`, `pu_month`,
`pu_day` while the run still produces the row. -/
theorem c4_timestamp_null_witness :
    ∃ f, f ∈ [yellowBadTs] ∧
      enrichedBadTs.pu_datetime = to_timestamp f.tpep_pickup_datetime ∧
      enrichedBadTs.do_datetime = to_timestamp f.tpep_dropoff_datetime ∧
      enrichedBadTs.pu_year = enrichedBadTs.pu_datetime.map (fun ts => ts.year) ∧
      enrichedBadTs.pu_month = enrichedBadTs.pu_datetime.map (fun ts => ts.month) ∧
      enrichedBadTs.pu_day = enrichedBadTs.pu_datetime.map (fun ts => ts.day) ∧
      (enrichedBadTs.pu_datetime = none →
        enrichedBadTs.pu_year = none ∧ enrichedBadTs.pu_month = none ∧
        enrichedBadTs.pu_day = none) :=
  c4_timestamp_null_on_parse_failure [yellowBadTs] tzEx ptEx enrichedBadTs
    (by decide)

/-- C8: the physical layout partitions the output by the fixed key
`(pu_year, pu_month)` — a partition directory exists exactly for each
distinct key pair occurring in the enriched dataset (hence never without
a contributing record), and on every output row the key columns are
deterministic projections of `pu_datetime`. -/
theorem c8_partition_layout (yellow : List YellowRow) (tz : List TaxiZoneRow)
    (pt : List PaymentTypeRow) :
    (∀ k, k ∈ partitionDirs (yellow_opt_df yellow tz pt) ↔
      ∃ e ∈ yellow_opt_df yellow tz pt, partitionKey e = k) ∧
    (∀ k ∈ partitionDirs (yellow_opt_df yellow tz pt),
      partitionContents (yellow_opt_df yellow tz pt) k ≠ []) ∧
    (∀ e ∈ yellow_opt_df yellow tz pt,
      e.pu_year = e.pu_datetime.map (fun ts => ts.year) ∧
      e.pu_month = e.pu_datetime.map (fun ts => ts.month)) := by
  have hmem : ∀ k, k ∈ partitionDirs (yellow_opt_df yellow tz pt) ↔
      ∃ e ∈ yellow_opt_df yellow tz pt, partitionKey e = k := by
    intro k
    unfold partitionDirs
    rw [List.mem_dedup, List.mem_map]
  refine ⟨hmem, ?_, ?_⟩
  · intro k hk
    rcases (hmem k).mp hk with ⟨e, he, hke⟩
    exact List.ne_nil_of_mem
      (List.mem_filter.mpr ⟨he, decide_eq_true hke⟩)
  · intro e he
    rcases mem_yellow_opt_df_decomp he with ⟨t, ht, rfl⟩
    exact ⟨rfl, rfl⟩

/-- C8 witness: the concrete example produces the single partition
directory `pu_year=2019/pu_month=1`, which is nonempty. -/
theorem c8_partition_layout_witness :
    partitionContents (yellow_opt_df [yellowEx] tzEx ptEx)
      (some 2019, some 1) ≠ [] :=
  (c8_partition_layout [yellowEx] tzEx ptEx).2.1 (some 2019, some 1) (by decide)

/-- C10: when the taxi-zone table has unique location ids, any output
row whose pickup and drop-off location identifiers coincide has pairwise
equal pickup-side and drop-off-side zone attributes, because both zone
lookups are renamed projections of the same taxi-zone table. -/
theorem c10_same_location_zone_agreement (yellow : List YellowRow)
    (tz : List TaxiZoneRow) (pt : List PaymentTypeRow) (e : EnrichedRow)
    (hz : tz.Pairwise (fun a b => a.locationid ≠ b.locationid))
    (he : e ∈ yellow_opt_df yellow tz pt)
    (heq : e.pu_locationid = e.do_locationid) :
    e.pu_borough = e.do_borough ∧ e.pu_zone = e.do_zone ∧
    e.pu_service_zone = e.do_service_zone := by
  rcases mem_yellow_opt_df_decomp he with ⟨t, ht, rfl⟩
  rcases mem_joined_decomp ht with ⟨-, hpu, hdo, -, -, -, -⟩
  rcases List.mem_map.mp hpu with ⟨z1, hz1, hz1e⟩
  rcases List.mem_map.mp hdo with ⟨z2, hz2, hz2e⟩
  have k1 : (enrich t).pu_locationid = z1.locationid := by
    show t.1.1.1.2.pu_locationid = z1.locationid
    rw [← hz1e]
  have k2 : (enrich t).do_locationid = z2.locationid := by
    show t.1.1.2.do_locationid = z2.locationid
    rw [← hz2e]
  have hkey : z1.locationid = z2.locationid := by
    rw [← k1, ← k2]
    exact heq
  have hzz : z1 = z2 := by
    by_cases hne : z1 = z2
    · exact hne
    · exact absurd hkey
        (List.Pairwise.forall (fun a b h => h.symm) hz hz1 hz2 hne)
  subst hzz
  refine ⟨?_, ?_, ?_⟩
  · show t.1.1.1.2.pu_borough = t.1.1.2.do_borough
    rw [← hz1e, ← hz2e]
  · show t.1.1.1.2.pu_zone = t.1.1.2.do_zone
    rw [← hz1e, ← hz2e]
  · show t.1.1.1.2.pu_service_zone = t.1.1.2.do_service_zone
    rw [← hz1e, ← hz2e]

/-- C10 witness: the fact row with equal pickup and drop-off location 1
yields an output row whose two zone-attribute triples agree. -/
theorem c10_same_location_zone_agreement_witness :
    enrichedSameLoc.pu_borough = enrichedSameLoc.do_borough ∧
    enrichedSameLoc.pu_zone = enrichedSameLoc.do_zone ∧
    enrichedSameLoc.pu_service_zone = enrichedSameLoc.do_service_zone :=
  c10_same_location_zone_agreement [yellowSameLoc] tzEx ptEx enrichedSameLoc
    (by decide) (by decide) (by decide)
